import Mathlib

namespace ErgoSpec

/-- JSON-like structured value, the payload type of the MCP response layer.
Numbers are modelled as exact rationals (the scenarios of the spec use exact
decimal values only). -/
inductive Json where
  | null : Json
  | bool : Bool → Json
  | num : ℚ → Json
  | str : String → Json
  | arr : List Json → Json
  | obj : List (String × Json) → Json

mutual

/-- Compact serialization of a Json value, modelling the UTF-8 serialization
used by the Metadata Computer for result sizing. -/
def Json.serialize : Json → String
  | .null => "null"
  | .bool true => "true"
  | .bool false => "false"
  | .num q => if q.den = 1 then toString q.num else toString q.num ++ "/" ++ toString q.den
  | .str s => "\"" ++ s ++ "\""
  | .arr xs => "[" ++ serializeItems xs ++ "]"
  | .obj kvs => "\x7b" ++ serializeMembers kvs ++ "\x7d"

def serializeItems : List Json → String
  | [] => ""
  | [x] => Json.serialize x
  | x :: xs => Json.serialize x ++ ", " ++ serializeItems xs

def serializeMembers : List (String × Json) → String
  | [] => ""
  | [(k, v)] => "\"" ++ k ++ "\": " ++ Json.serialize v
  | (k, v) :: xs => "\"" ++ k ++ "\": " ++ Json.serialize v ++ ", " ++ serializeMembers xs

end

example : Json.serialize (.arr [.num 1, .str "a"]) = "[1, \"a\"]" := rfl

/-- Splits a character list at every occurrence of the separator character,
the list analogue of splitting a string into lines. -/
def splitOnChar (sep : Char) : List Char → List (List Char)
  | [] => [[]]
  | x :: xs =>
    let r := splitOnChar sep xs
    if x = sep then [] :: r
    else
      match r with
      | [] => [[x]]
      | h :: t => (x :: h) :: t

/-- Tests whether the second list starts with the first. -/
def startsWithCh : List Char → List Char → Bool
  | [], _ => true
  | _ :: _, [] => false
  | p :: ps, c :: cs => p == c && startsWithCh ps cs

/-- Tests whether the needle occurs as a contiguous sublist of the haystack. -/
def containsSubCh (needle : List Char) : List Char → Bool
  | [] => startsWithCh needle []
  | c :: cs => startsWithCh needle (c :: cs) || containsSubCh needle cs

/-- Substring test on strings, used by the keyword-sniffing dispatch. -/
def containsSub (hay needle : String) : Bool :=
  containsSubCh needle.data hay.data

/-- Drops leading JSON whitespace. -/
def skipWs : List Char → List Char
  | [] => []
  | c :: cs =>
    if c = ' ' || c = '\n' || c = '\t' || c = '\r' then skipWs cs else c :: cs

/-- Numeric value of a list of decimal digit characters. -/
def digitsToNat (ds : List Char) : Nat :=
  ds.foldl (fun a c => a * 10 + (c.toNat - 48)) 0

/-- Reads a decimal number (optional minus sign, digits, optional fractional
part) from the front of a character list; returns the value and the rest. -/
def readNumber (cs : List Char) : Option (ℚ × List Char) :=
  let (neg, cs1) := match cs with
    | '-' :: t => (true, t)
    | _ => (false, cs)
  let ds := cs1.takeWhile Char.isDigit
  let rest := cs1.dropWhile Char.isDigit
  if ds.isEmpty then none
  else
    let ip : ℚ := (digitsToNat ds : ℚ)
    let (v, rest2) : ℚ × List Char :=
      match rest with
      | '.' :: t =>
        let fs := t.takeWhile Char.isDigit
        let t2 := t.dropWhile Char.isDigit
        if fs.isEmpty then (ip, rest)
        else (ip + (digitsToNat fs : ℚ) / ((10 : ℚ) ^ fs.length), t2)
      | _ => (ip, rest)
    some (if neg then -v else v, rest2)

/-- Reads a quoted JSON string literal body after the opening quote has been
consumed; handles the basic escapes. -/
def readStringBody : List Char → Option (List Char × List Char)
  | [] => none
  | '"' :: rest => some ([], rest)
  | '\\' :: e :: rest =>
    match readStringBody rest with
    | none => none
    | some (body, rest2) =>
      let c : Option Char :=
        match e with
        | '"' => some '"'
        | '\\' => some '\\'
        | '/' => some '/'
        | 'n' => some '\n'
        | 't' => some '\t'
        | 'r' => some '\r'
        | _ => none
      match c with
      | some ch => some (ch :: body, rest2)
      | none => none
  | c :: rest =>
    match readStringBody rest with
    | none => none
    | some (body, rest2) => some (c :: body, rest2)

mutual

/-- Fuel-driven recursive-descent parser for one JSON value; models the strict
JSON parse attempted by the Format Detector on string payloads. -/
def parseValue : Nat → List Char → Option (Json × List Char)
  | 0, _ => none
  | Nat.succ n, cs =>
    match skipWs cs with
    | 'n' :: 'u' :: 'l' :: 'l' :: r => some (.null, r)
    | 't' :: 'r' :: 'u' :: 'e' :: r => some (.bool true, r)
    | 'f' :: 'a' :: 'l' :: 's' :: 'e' :: r => some (.bool false, r)
    | '"' :: r =>
      match readStringBody r with
      | some (body, r2) => some (.str (String.mk body), r2)
      | none => none
    | '[' :: r =>
      match skipWs r with
      | ']' :: r2 => some (.arr [], r2)
      | r2 => parseItems n r2
    | '\x7b' :: r =>
      match skipWs r with
      | '\x7d' :: r2 => some (.obj [], r2)
      | r2 => parseMembers n r2
    | r =>
      match readNumber r with
      | some (q, r2) => some (.num q, r2)
      | none => none

/-- Parses the comma-separated items of a JSON array up to the closing
bracket. -/
def parseItems : Nat → List Char → Option (Json × List Char)
  | 0, _ => none
  | Nat.succ n, cs =>
    match parseValue n cs with
    | none => none
    | some (v, rest) =>
      match skipWs rest with
      | ',' :: r2 =>
        match parseItems n r2 with
        | some (.arr vs, r3) => some (.arr (v :: vs), r3)
        | _ => none
      | ']' :: r2 => some (.arr [v], r2)
      | _ => none

/-- Parses the comma-separated members of a JSON object up to the closing
brace. -/
def parseMembers : Nat → List Char → Option (Json × List Char)
  | 0, _ => none
  | Nat.succ n, cs =>
    match skipWs cs with
    | '"' :: r =>
      match readStringBody r with
      | none => none
      | some (key, r2) =>
        match skipWs r2 with
        | ':' :: r3 =>
          match parseValue n r3 with
          | none => none
          | some (v, r4) =>
            match skipWs r4 with
            | ',' :: r5 =>
              match parseMembers n r5 with
              | some (.obj ms, r6) => some (.obj ((String.mk key, v) :: ms), r6)
              | _ => none
            | '\x7d' :: r5 => some (.obj [(String.mk key, v)], r5)
            | _ => none
        | _ => none
    | _ => none

end

/-- Strict JSON parse of a character list: one value, nothing but whitespace
after it. -/
def parseJsonChars (cs : List Char) : Option Json :=
  match parseValue (cs.length + 2) cs with
  | some (j, rest) => if skipWs rest = [] then some j else none
  | none => none

/-- Strict JSON parse of a string, modelling the parse attempt of the Format
Detector (Python json.loads restricted to the grammar above). -/
def parseJson (s : String) : Option Json :=
  parseJsonChars s.data

example : parseJson "[true, null]" = some (.arr [.bool true, .null]) := rfl
example : parseJson " \x7b\"a\": [1, 2]\x7d " =
    some (.obj [("a", .arr [.num 1, .num 2])]) := rfl
example : parseJson "Balance for x" = none := rfl
example : parseJson "-2.5" = some (.num (-(5 / 2 : ℚ))) := by
  with_unfolding_all rfl

/-- Raw payload handed to the Response Standardizer by a tool function:
either a native structured value or a string body. -/
inductive RawPayload where
  | structured : Json → RawPayload
  | str : String → RawPayload

/-- Transient classification produced by the Format Detector. -/
inductive DetectedFormat where
  | json
  | markdown
  | text
  | mixed
  deriving DecidableEq, Repr

/-- Modelled from the spec: markdown-signal scan of the Format Detector
(leading hash headers, bullet markers, code fences); the detector itself is
part of response_standardizer.py, which is absent from src/. -/
def hasMarkdownSignals (s : String) : Bool :=
  (splitOnChar '\n' s.data).any fun l =>
    let t := l.dropWhile (fun c => c == ' ')
    startsWithCh ['#'] t || startsWithCh ['•', ' '] t || startsWithCh ['-', ' '] t ||
      startsWithCh ['\x60', '\x60', '\x60'] t

/-- Region of a character list from the first occurrence of the opening
character through the last occurrence of the closing character. -/
def sliceBetween (o c : Char) (cs : List Char) : Option (List Char) :=
  let fromOpen := cs.dropWhile (fun x => !(x == o))
  match fromOpen with
  | [] => none
  | _ =>
    let upTo := (fromOpen.reverse.dropWhile (fun x => !(x == c))).reverse
    match upTo with
    | [] => none
    | _ => some upTo

/-- Modelled from the spec: embedded-JSON scan of the Format Detector — a
recognizable embedded brace or bracket block that parses as JSON. -/
def hasEmbeddedJson (s : String) : Bool :=
  (match sliceBetween '\x7b' '\x7d' s.data with
    | some cs => (parseJsonChars cs).isSome
    | none => false) ||
  (match sliceBetween '[' ']' s.data with
    | some cs => (parseJsonChars cs).isSome
    | none => false)

/-- Modelled from the spec: the Format Detector of response_standardizer.py
(absent from src/). Native structured values are json; strings that strictly
parse are json; markdown signals with an embedded JSON block give mixed,
without one markdown; everything else is text. It is a total function — no
exception escapes, malformed input degrades to text. -/
def detect : RawPayload → DetectedFormat
  | .structured _ => .json
  | .str s =>
    if (parseJson s).isSome then .json
    else if hasMarkdownSignals s then
      if hasEmbeddedJson s then .mixed else .markdown
    else .text

/-- The family of Section Parsers the Standardizer can dispatch to. -/
inductive ParserKind where
  | balance
  | transaction
  | box
  | eip
  | generic
  deriving DecidableEq, Repr

/-- Modelled from the spec: endpoint-name hint used by the dispatch policy of
the Standardizer (response_standardizer.py, absent from src/). -/
def parserForEndpoint (ep : String) : Option ParserKind :=
  if containsSub ep "balance" then some .balance
  else if containsSub ep "transaction" then some .transaction
  else if containsSub ep "box" then some .box
  else if containsSub ep "eip" then some .eip
  else none

/-- Modelled from the spec: content-sniffing dispatch — keyword presence
tried in priority order, first match wins, generic fallback. -/
def sniffParserKind (s : String) : ParserKind :=
  if containsSub s "Balance for" then .balance
  else if containsSub s "Transaction Details" then .transaction
  else if containsSub s "Box Details" then .box
  else if containsSub s "EIP-" then .eip
  else .generic

/-- Modelled from the spec: full dispatch policy — endpoint-name hint first
when supplied (the empty string models an absent hint), content sniffing
otherwise. -/
def pickParserKind (ep s : String) : ParserKind :=
  match parserForEndpoint ep with
  | some k => k
  | none => sniffParserKind s

/-- First maximal run of characters other than the stop character. -/
def takeUntilCh (stop : Char) (cs : List Char) : List Char :=
  cs.takeWhile (fun c => !(c == stop))

/-- Bounded excerpt of an input used in ParseError diagnostics. -/
def truncateStr (s : String) (n : Nat) : String :=
  String.mk (s.data.take n)

/-- Modelled from the spec: token bullet lines following a Tokens header in a
balance block, one parsed entry per bullet line. -/
def parseTokenLines (lines : List (List Char)) : List Json :=
  match lines.dropWhile (fun l => !(startsWithCh ['T', 'o', 'k', 'e', 'n', 's'] l)) with
  | [] => []
  | _ :: rest =>
    (rest.takeWhile (fun l => startsWithCh ['•', ' '] l)).map fun l =>
      let body := l.drop 2
      let amt := takeUntilCh ' ' body
      let name := (body.drop (amt.length + 1)).dropWhile (fun c => c == ' ')
      match readNumber amt with
      | some (q, []) => .obj [("amount", .num q), ("name", .str (String.mk name))]
      | _ => .str (String.mk body)

/-- Modelled from the spec: parse_balance_string of response_standardizer.py
(absent from src/) — extracts the address from the Balance for line, the ERG
amount from the first bullet line mentioning ERG, and the token list; missing
fields degrade to null, and only a fully unrecognizable input is a
ParseError. -/
def parse_balance_string (s : String) : Except String Json :=
  let lines := splitOnChar '\n' s.data
  let addr : Option Json :=
    match lines.find? (fun l => startsWithCh "Balance for ".data l) with
    | some l => some (.str (String.mk (takeUntilCh ':' (l.drop 12))))
    | none => none
  let erg : Option Json :=
    match lines.find? (fun l =>
        startsWithCh ['•', ' '] l && containsSubCh ['E', 'R', 'G'] l) with
    | some l =>
      match readNumber (takeUntilCh ' ' (l.drop 2)) with
      | some (q, []) => some (.num q)
      | _ => none
    | none => none
  if addr.isNone && erg.isNone then
    .error ("Could not parse balance response: " ++ truncateStr s 100)
  else
    .ok (.obj [("address", addr.getD .null), ("erg_balance", erg.getD .null),
      ("tokens", .arr (parseTokenLines lines))])

/-- Splits a line at its first colon into a key and the remaining value. -/
def splitFirstColon (l : List Char) : Option (String × String) :=
  let k := takeUntilCh ':' l
  if k.length = l.length then none
  else some (String.mk k, String.mk ((l.drop (k.length + 1)).dropWhile (fun c => c == ' ')))

/-- Modelled from the spec: the generic line-based key:value extractor used
when no content heuristic matches — splits each line on its first colon; a
ParseError only when no line at all yields a pair. -/
def parse_generic_kv (s : String) : Except String Json :=
  let kvs := (splitOnChar '\n' s.data).filterMap fun l =>
    (splitFirstColon l).map fun p => (p.1, Json.str p.2)
  if kvs.isEmpty then
    .error ("No recognizable structure in response: " ++ truncateStr s 100)
  else
    .ok (.obj kvs)

/-- Modelled from the spec: dispatch from parser kind to Section Parser. The
balance parser is modelled in full; the transaction, box and EIP parsers
share the pattern-driven labeled-line design of §4.2 and are modelled by the
generic labeled-line extractor, which no claim distinguishes from them. -/
def parseSection : ParserKind → String → Except String Json
  | .balance, s => parse_balance_string s
  | _, s => parse_generic_kv s

/-- Modelled from the spec: smart_limit of ergo_explorer/response_format.py
(absent from src/; only its docstring appears in the endpoint report).
Truncates an oversized sequence to the first max_items elements in order and
reports the truncation flag and the original count alongside the kept items;
a zero or negative limit is the documented no-limit pass-through. -/
def smart_limit {α : Type} (data : List α) (limit : Int) : List α × Bool × Nat :=
  if limit ≤ 0 then (data, false, data.length)
  else if (data.length : Int) ≤ limit then (data, false, data.length)
  else (data.take limit.toNat, true, data.length)

/-- Envelope status enum. -/
inductive Status where
  | success
  | error
  deriving DecidableEq, Repr

/-- Error object carried by an error envelope. -/
structure ErrorInfo where
  code : Int
  message : String
  deriving DecidableEq, Repr

/-- Metadata object of the envelope; always fully populated. Field names
mirror the serialized response of the PHASE2A summary. -/
structure Metadata where
  execution_time_ms : ℚ
  result_size_bytes : Nat
  is_truncated : Bool
  original_count : Option Nat
  result_count : Option Nat
  token_estimate : Nat

/-- The standardized response envelope returned to every caller. -/
structure Envelope where
  status : Status
  data : Option Json
  metadata : Metadata
  error : Option ErrorInfo
  message : Option String

/-- Output format requested by the caller of the Standardizer. -/
inductive RespFormat where
  | json
  | markdown
  deriving DecidableEq, Repr

/-- Explicit configuration passed to the Standardizer: the resolved result
limit for the endpoint (resolution order per-call over per-category over
global is external configuration); none means no limit applies. -/
structure Config where
  limit : Option Int

/-- Status rendered as its serialized field value. -/
def statusText : Status → String
  | .success => "success"
  | .error => "error"

/-- Default conservative characters-per-token heuristic used when no
specialized tokenizer profile is available. -/
def charsPerTokenDefault : Nat := 4

/-- Modelled from the spec: deterministic token estimate over the serialized
data and the status field under the fixed fallback ratio; never throws, only
degrades in accuracy. -/
def tokenEstimate (st : Status) (sizeBytes : Nat) : Nat :=
  (sizeBytes + (statusText st).utf8ByteSize + charsPerTokenDefault - 1) / charsPerTokenDefault

/-- Modelled from the spec: the Metadata Computer of response_format.py
(absent from src/). Elapsed time is clamped at zero, the size is the UTF-8
size of the serialized payload (the error payload on the error path), and
the truncation fields come from the Smart Limiter when limiting was applied
and are false / null / null otherwise. -/
def computeMetadata (st : Status) (sizeSrc : String) (elapsed : ℚ)
    (lim : Option (Bool × Nat × Nat)) : Metadata :=
  let sz := sizeSrc.utf8ByteSize
  { execution_time_ms := max 0 elapsed
    result_size_bytes := sz
    is_truncated :=
      match lim with
      | some l => l.1
      | none => false
    original_count :=
      match lim with
      | some (true, oc, _) => some oc
      | _ => none
    result_count :=
      match lim with
      | some (_, _, rc) => some rc
      | none => none
    token_estimate := tokenEstimate st sz }

/-- Modelled from the spec: the ErrorBuild terminal state — an error envelope
with the upstream or diagnostic message, null data, and metadata computed
over the error payload. -/
def errorBuild (code : Int) (msg : String) (elapsed : ℚ) : Envelope :=
  { status := .error
    data := none
    metadata := computeMetadata .error msg elapsed none
    error := some { code := code, message := msg }
    message := none }

/-- Generic internal error code used when no upstream status code applies. -/
def internalErrorCode : Int := 500

/-- The string form of a raw payload, used for upstream error messages and
error-path sizing. -/
def rawText : RawPayload → String
  | .str s => s
  | .structured j => Json.serialize j

/-- Modelled from the spec: steps DetectFormat and Branch of the
Standardizer — a json payload is used as-is as data, everything else is
dispatched to the matching Section Parser, whose failure is a ParseError. -/
def dataResult (ep : String) (raw : RawPayload) : Except String Json :=
  match raw with
  | .structured j => .ok j
  | .str s =>
    match detect (.str s) with
    | .json =>
      match parseJson s with
      | some j => .ok j
      | none => .error ("Detector and parser disagree on: " ++ truncateStr s 100)
    | _ => parseSection (pickParserKind ep s) s

/-- Modelled from the spec: step Limit of the Standardizer — the Smart
Limiter runs only when the data is list-shaped and a limit applies; its
results feed the pending metadata fields. -/
def applyLimit (d : Json) (cfg : Config) : Json × Option (Bool × Nat × Nat) :=
  match d, cfg.limit with
  | .arr xs, some m =>
    let r := smart_limit xs m
    (.arr r.1, some (r.2.1, r.2.2, r.1.length))
  | _, _ => (d, none)

/-- Modelled from the spec: step FormatOutput — for markdown output a string
payload that was already formatted is passed through, anything else is
rendered from the data; for json output the structured data is returned
unchanged. -/
def formatData (fmt : RespFormat) (raw : RawPayload) (d : Json) : Json :=
  match fmt with
  | .json => d
  | .markdown =>
    match raw with
    | .str s => if (parseJson s).isSome then .str (Json.serialize d) else .str s
    | .structured _ => .str (Json.serialize d)

/-- Modelled from the spec: the Success terminal state — a success envelope
around the limited, formatted data with metadata over the limited data. -/
def successBuild (fmt : RespFormat) (raw : RawPayload) (d : Json) (cfg : Config)
    (elapsed : ℚ) : Envelope :=
  { status := .success
    data := some (formatData fmt raw (applyLimit d cfg).1)
    metadata := computeMetadata .success (Json.serialize (applyLimit d cfg).1)
      elapsed (applyLimit d cfg).2
    error := none
    message := none }

/-- Modelled from the spec: the Response Standardizer of
response_format.py / response_standardizer.py (absent from src/) — the one
pass state machine Start, DetectFormat, Branch, Limit, Metadata,
FormatOutput with the ErrorBuild terminal state. Elapsed wall-clock time is
passed in explicitly, keeping the function pure. -/
def standardize (ep : String) (raw : RawPayload) (status_code : Int)
    (fmt : RespFormat) (cfg : Config) (elapsed : ℚ) : Envelope :=
  if 400 ≤ status_code then
    errorBuild status_code (rawText raw) elapsed
  else
    match dataResult ep raw with
    | .error e => errorBuild internalErrorCode e elapsed
    | .ok d => successBuild fmt raw d cfg elapsed

/-- Modelled from the spec: the standardize_response decorator — the wrapped
tool function either returns a raw payload or raises (modelled as Except);
a raise is absorbed at the Standardizer boundary into an error envelope, a
normal return is standardized with a success status code. -/
def standardize_response_decorated (ep : String) (tool : Except String RawPayload)
    (fmt : RespFormat) (cfg : Config) (elapsed : ℚ) : Envelope :=
  match tool with
  | .ok raw => standardize ep raw 200 fmt cfg elapsed
  | .error e => errorBuild internalErrorCode ("Error: " ++ e) elapsed

/-- The payload-level predicate of the format round-trip property: the raw
payload is already valid JSON, either as a native structured value or as a
strictly parseable string, with the given parse result. -/
def parsedOf : RawPayload → Option Json
  | .structured j => some j
  | .str s => parseJson s

/-- ASCII lowercase of one character, the List Char level of Python
str.lower as used by blockchain_status on response_format. -/
def charLower (c : Char) : Char :=
  if 65 ≤ c.toNat ∧ c.toNat ≤ 90 then Char.ofNat (c.toNat + 32) else c

/-- ASCII lowercase of a string. -/
def lowerStr (s : String) : String :=
  String.mk (s.data.map charLower)

/-- Dictionary lookup with default on a Json object, modelling Python
dict.get with a numeric default. -/
def jGetNum (j : Json) (k : String) (dflt : ℚ) : ℚ :=
  match j with
  | .obj kvs =>
    match kvs.find? (fun p => p.1 == k) with
    | some (_, .num q) => q
    | _ => dflt
  | _ => dflt

/-- Dictionary lookup with default on a Json object, modelling Python
dict.get with a string default. -/
def jGetStr (j : Json) (k : String) (dflt : String) : String :=
  match j with
  | .obj kvs =>
    match kvs.find? (fun p => p.1 == k) with
    | some (_, .str s) => s
    | _ => dflt
  | _ => dflt

/-- Everything the fetch-and-compute phase of blockchain_status produces
before formatting: the three fetched documents, the two derived mining
figures (format_difficulty and calculate_hashrate live outside src/), and
the rendered timestamp (datetime.now is environment input). -/
structure FetchData where
  height_data : Json
  node_info : Json
  network_state : Json
  readable_difficulty : String
  hashrate : ℚ
  timestamp : String

/-- The status_data dictionary assembled by blockchain_status, translated
from the documented implementation in RESPONSE_STANDARDIZATION.md. -/
def buildStatusData (fd : FetchData) : Json :=
  let indexed := jGetNum fd.height_data "indexedHeight" 0
  let full := jGetNum fd.height_data "fullHeight" 0
  let behind := full - indexed
  let difficulty := jGetNum fd.node_info "difficulty" 0
  .obj
    [("height", .obj
        [("current", .num full),
         ("indexed", .num indexed),
         ("blocksBehind", .num behind),
         ("isIndexingSynced", .bool (behind == 0)),
         ("lastBlockTimestamp", .num (jGetNum fd.height_data "lastBlockTimestamp" 0))]),
     ("mining", .obj
        [("difficulty", .num difficulty),
         ("readableDifficulty", .str fd.readable_difficulty),
         ("estimatedHashrate", .num fd.hashrate),
         ("estimatedHashrateTh", .num (fd.hashrate / 1000000000000)),
         ("blockTimeTarget", .num 120)]),
     ("network", .obj
        [("name", .str (jGetStr fd.node_info "network" "mainnet")),
         ("version", .str (jGetStr fd.node_info "appVersion" "Unknown")),
         ("stateType", .str (jGetStr fd.node_info "stateType" "Unknown")),
         ("headersHeight", .num (jGetNum fd.node_info "headersHeight" 0)),
         ("peersCount", .num (jGetNum fd.node_info "peersCount" 0)),
         ("unconfirmedCount", .num (jGetNum fd.node_info "unconfirmedCount" 0))])]

/-- The markdown block rendered by blockchain_status before it is handed to
standardize_response, translated from RESPONSE_STANDARDIZATION.md with the
thousands-separator cosmetics elided. -/
def markdownOutput (fd : FetchData) : String :=
  let full := jGetNum fd.height_data "fullHeight" 0
  let indexed := jGetNum fd.height_data "indexedHeight" 0
  let behind := full - indexed
  "\n# Ergo Blockchain Status\n*Last updated: " ++ fd.timestamp ++ "*\n\n" ++
  "## Height Information\n" ++
  "• **Current Height**: " ++ Json.serialize (.num full) ++ "\n" ++
  "• **Indexed Height**: " ++ Json.serialize (.num indexed) ++ "\n" ++
  "• **Blocks Behind**: " ++ Json.serialize (.num behind) ++ "\n" ++
  "• **Status**: " ++ (if behind == 0 then "Fully Synced" else "Indexing") ++ "\n\n" ++
  "## Mining Information\n" ++
  "• **Difficulty**: " ++ Json.serialize (.num (jGetNum fd.node_info "difficulty" 0)) ++ "\n" ++
  "• **Readable Difficulty**: " ++ fd.readable_difficulty ++ "\n" ++
  "• **Estimated Hashrate**: " ++ Json.serialize (.num (fd.hashrate / 1000000000000)) ++ " TH/s\n" ++
  "• **Target Block Time**: 120 seconds\n\n" ++
  "## Network Status\n" ++
  "• **Network**: " ++ jGetStr fd.node_info "network" "mainnet" ++ "\n" ++
  "• **Version**: " ++ jGetStr fd.node_info "appVersion" "Unknown" ++ "\n" ++
  "• **State Type**: " ++ jGetStr fd.node_info "stateType" "Unknown" ++ "\n" ++
  "• **Headers Height**: " ++ Json.serialize (.num (jGetNum fd.node_info "headersHeight" 0)) ++ "\n" ++
  "• **Connected Peers**: " ++ Json.serialize (.num (jGetNum fd.node_info "peersCount" 0)) ++ "\n" ++
  "• **Unconfirmed Transactions**: " ++ Json.serialize (.num (jGetNum fd.node_info "unconfirmedCount" 0)) ++ "\n"

/-- What a call of the dual-format endpoint blockchain_status can return:
a bare data dictionary, an envelope from standardize_response, or one of the
two exception-path shapes. -/
inductive BSOutput where
  | raw : Json → BSOutput
  | standardized : Envelope → BSOutput
  | errJson : Json → BSOutput
  | errText : String → BSOutput

/-- Modelled from the spec: the blockchain module standardize_response
(Standardize a response to JSON format) applied to the markdown block, as
invoked on the markdown path of blockchain_status; realized by the
Standardizer model with no limit and external timing fixed at zero. -/
def bs_standardize_response (response : String) (response_format : String) : Envelope :=
  standardize "blockchain_status" (.str response) 200
    (if lowerStr response_format = "json" then .json else .markdown)
    { limit := none } 0

/-- The dual-format endpoint blockchain_status, translated from the
documented implementation in RESPONSE_STANDARDIZATION.md: the fetch and
compute phase is abstracted as an Except-valued input (it may raise); on the
json format the bare status_data dictionary is returned directly, otherwise
the rendered markdown is passed through standardize_response; the exception
path returns a bare error object (json) or a plain string (markdown). -/
def blockchain_status (fetch : Except String FetchData) (response_format : String) :
    BSOutput :=
  match fetch with
  | .ok fd =>
    let status_data := buildStatusData fd
    if lowerStr response_format = "json" then .raw status_data
    else .standardized (bs_standardize_response (markdownOutput fd) response_format)
  | .error e =>
    let msg := "Error retrieving blockchain status: " ++ e
    if lowerStr response_format = "json" then .errJson (.obj [("error", .str msg)])
    else .errText msg

/-- The concrete balance markdown block of the spec scenario. -/
def balanceSample : String :=
  "Balance for 9f...:\n• 5.000000000 ERG\n\nNo tokens found."

/-- A concrete fetch result for witnesses about blockchain_status. -/
def fdSample : FetchData :=
  { height_data := .obj [("indexedHeight", .num 100), ("fullHeight", .num 100)]
    node_info := .obj [("difficulty", .num 7)]
    network_state := .obj []
    readable_difficulty := "7.00 H"
    hashrate := 56
    timestamp := "2025-01-01 00:00:00 UTC" }

theorem applyLimit_none (d : Json) : applyLimit d { limit := none } = (d, none) := by
  cases d <;> rfl

theorem standardize_shape (ep : String) (raw : RawPayload) (code : Int)
    (fmt : RespFormat) (cfg : Config) (t : ℚ) :
    (∃ c m, standardize ep raw code fmt cfg t = errorBuild c m t) ∨
    ∃ d, standardize ep raw code fmt cfg t = successBuild fmt raw d cfg t := by
  unfold standardize
  split
  · exact Or.inl ⟨code, rawText raw, rfl⟩
  · split
    · next e _ => exact Or.inl ⟨internalErrorCode, e, rfl⟩
    · next d _ => exact Or.inr ⟨d, rfl⟩

/-- C1: for every input the Response Standardizer returns an envelope whose
status is populated and in which exactly one of data and error is populated,
on the error path exactly as on the success path; metadata is the always
present Metadata structure of the envelope. -/
theorem claim_C1 (ep : String) (raw : RawPayload) (code : Int)
    (fmt : RespFormat) (cfg : Config) (t : ℚ) :
    ((standardize ep raw code fmt cfg t).status = .success ∧
      ((standardize ep raw code fmt cfg t).data).isSome = true ∧
      (standardize ep raw code fmt cfg t).error = none) ∨
    ((standardize ep raw code fmt cfg t).status = .error ∧
      (standardize ep raw code fmt cfg t).data = none ∧
      ((standardize ep raw code fmt cfg t).error).isSome = true) := by
  rcases standardize_shape ep raw code fmt cfg t with ⟨c, m, h⟩ | ⟨d, h⟩
  · right
    rw [h]
    exact ⟨rfl, rfl, rfl⟩
  · left
    rw [h]
    exact ⟨rfl, rfl, rfl⟩

/-- C2: truncation law of the Smart Limiter for a positive resolved limit —
at most the limit is kept, order is stable, and the triple of limited items,
truncation flag and original count is always reported. -/
theorem claim_C2 {α : Type} (items : List α) (m : Int) (hm : 0 < m) :
    (((items.length : Int) ≤ m →
        smart_limit items m = (items, false, items.length)) ∧
      (m < (items.length : Int) →
        smart_limit items m = (items.take m.toNat, true, items.length))) := by
  constructor
  · intro hle
    unfold smart_limit
    rw [if_neg (not_le.mpr hm), if_pos hle]
  · intro hgt
    unfold smart_limit
    rw [if_neg (not_le.mpr hm), if_neg (not_le.mpr hgt)]

theorem claim_C2_witness :
    smart_limit ([10, 20, 30] : List Nat) 2 = ([10, 20], true, 3) := by
  have h := (claim_C2 ([10, 20, 30] : List Nat) 2 (by norm_num)).2 (by norm_num)
  simpa using h

/-- C3: the decorated Standardizer is a total function into envelopes — a
raise of the wrapped tool function and a failure of the parsing pipeline are
both absorbed into a status error envelope, never re-raised. -/
theorem claim_C3 (ep : String) (tool : Except String RawPayload)
    (fmt : RespFormat) (cfg : Config) (t : ℚ) :
    ((standardize_response_decorated ep tool fmt cfg t).status = .success ∨
      (standardize_response_decorated ep tool fmt cfg t).status = .error) ∧
    (∀ m, tool = .error m →
      (standardize_response_decorated ep tool fmt cfg t).status = .error) ∧
    (∀ raw e, tool = .ok raw → dataResult ep raw = .error e →
      (standardize_response_decorated ep tool fmt cfg t).status = .error) := by
  refine ⟨?_, ?_, ?_⟩
  · cases h : (standardize_response_decorated ep tool fmt cfg t).status
    · exact Or.inl rfl
    · exact Or.inr rfl
  · intro m hm
    subst hm
    rfl
  · intro raw e htool hparse
    subst htool
    show (standardize ep raw 200 fmt cfg t).status = .error
    unfold standardize
    rw [if_neg (by norm_num : ¬ (400 : Int) ≤ 200), hparse]
    rfl

theorem claim_C3_witness :
    (standardize_response_decorated "get_address_balance_json"
      (Except.error "connection refused") .json { limit := none } 0).status = .error :=
  (claim_C3 "get_address_balance_json" (Except.error "connection refused")
    .json { limit := none } 0).2.1 "connection refused" rfl

/-- C4: the metadata of every envelope carries, on success and error alike, the
six fields of the Metadata structure, with execution_time_ms, the byte size
and the token estimate all nonnegative. -/
theorem claim_C4 (ep : String) (raw : RawPayload) (code : Int)
    (fmt : RespFormat) (cfg : Config) (t : ℚ) :
    0 ≤ (standardize ep raw code fmt cfg t).metadata.execution_time_ms ∧
    0 ≤ ((standardize ep raw code fmt cfg t).metadata.result_size_bytes : Int) ∧
    0 ≤ ((standardize ep raw code fmt cfg t).metadata.token_estimate : Int) := by
  rcases standardize_shape ep raw code fmt cfg t with ⟨c, m, h⟩ | ⟨d, h⟩ <;>
    rw [h] <;>
    exact ⟨le_max_left 0 t, Int.natCast_nonneg _, Int.natCast_nonneg _⟩

/-- C5: format round trip — a payload that is already valid JSON (native
structured value or strictly parseable string), standardized with the json
response format, a success status code and no configured limit, comes back
with data deep-equal to the parsed input. -/
theorem claim_C5 (ep : String) (raw : RawPayload) (j : Json) (code : Int)
    (t : ℚ) (hok : code < 400) (hjson : parsedOf raw = some j) :
    (standardize ep raw code .json { limit := none } t).data = some j := by
  have hdr : dataResult ep raw = .ok j := by
    cases raw with
    | structured x =>
      obtain rfl : x = j := by simpa [parsedOf] using hjson
      rfl
    | str s =>
      have hp : parseJson s = some j := hjson
      simp [dataResult, detect, hp]
  unfold standardize
  rw [if_neg (not_le.mpr hok), hdr]
  show some (formatData .json raw (applyLimit j { limit := none }).1) = some j
  rw [applyLimit_none]
  rfl

theorem claim_C5_witness :
    (standardize "blockchain_status" (.str "[true, null]") 200 .json
      { limit := none } 0).data = some (.arr [.bool true, .null]) :=
  claim_C5 "blockchain_status" (.str "[true, null]") (.arr [.bool true, .null])
    200 0 (by norm_num) rfl

/-- C6: upstream error pass-through — any status code at or above 400 yields
a status error envelope whose error carries that code and the upstream body
as message, with null data. -/
theorem claim_C6 (ep : String) (raw : RawPayload) (code : Int)
    (fmt : RespFormat) (cfg : Config) (t : ℚ) (h : 400 ≤ code) :
    (standardize ep raw code fmt cfg t).status = .error ∧
    (standardize ep raw code fmt cfg t).data = none ∧
    (standardize ep raw code fmt cfg t).error =
      some { code := code, message := rawText raw } := by
  unfold standardize
  rw [if_pos h]
  exact ⟨rfl, rfl, rfl⟩

theorem claim_C6_witness :
    (standardize "get_box_info" (.str "Not found") 404 .json { limit := none } 1).status
        = .error ∧
    (standardize "get_box_info" (.str "Not found") 404 .json { limit := none } 1).data
        = none ∧
    (standardize "get_box_info" (.str "Not found") 404 .json { limit := none } 1).error
        = some { code := 404, message := "Not found" } :=
  claim_C6 "get_box_info" (.str "Not found") 404 .json { limit := none } 1 (by norm_num)

/-- C7: a zero or negative limit means no limit — the Smart Limiter passes
the sequence through unchanged and reports no truncation. -/
theorem claim_C7 {α : Type} (items : List α) (m : Int) (hm : m ≤ 0) :
    smart_limit items m = (items, false, items.length) := by
  unfold smart_limit
  rw [if_pos hm]

theorem claim_C7_witness :
    smart_limit ([1, 2] : List Nat) (-3) = ([1, 2], false, 2) :=
  claim_C7 ([1, 2] : List Nat) (-3) (by norm_num)

/-- C8: balance markdown scenario — the sample block is detected as
markdown, dispatched to the balance parser on the Balance for keyword, and
parsed to the address, the 5.0 ERG balance as an exact rational, and the
empty token list. -/
theorem claim_C8 :
    detect (.str balanceSample) = .markdown ∧
    pickParserKind "" balanceSample = .balance ∧
    parse_balance_string balanceSample =
      .ok (.obj [("address", .str "9f..."), ("erg_balance", .num 5),
        ("tokens", .arr [])]) := by
  refine ⟨?_, ?_, ?_⟩ <;> with_unfolding_all rfl

/-- C9: determinism of the Standardizer — two runs on the same endpoint,
payload and status code agree on data, error, result_size_bytes and
token_estimate; only the elapsed-time input (hence execution_time_ms) may
differ between runs. -/
theorem claim_C9 (ep : String) (raw : RawPayload) (code : Int)
    (fmt : RespFormat) (cfg : Config) (t1 t2 : ℚ) :
    (standardize ep raw code fmt cfg t1).data =
      (standardize ep raw code fmt cfg t2).data ∧
    (standardize ep raw code fmt cfg t1).error =
      (standardize ep raw code fmt cfg t2).error ∧
    (standardize ep raw code fmt cfg t1).metadata.result_size_bytes =
      (standardize ep raw code fmt cfg t2).metadata.result_size_bytes ∧
    (standardize ep raw code fmt cfg t1).metadata.token_estimate =
      (standardize ep raw code fmt cfg t2).metadata.token_estimate := by
  unfold standardize
  by_cases hc : 400 ≤ code
  · rw [if_pos hc, if_pos hc]
    exact ⟨rfl, rfl, rfl, rfl⟩
  · rw [if_neg hc, if_neg hc]
    cases dataResult ep raw with
    | error e => exact ⟨rfl, rfl, rfl, rfl⟩
    | ok d => exact ⟨rfl, rfl, rfl, rfl⟩

/-- C10: the dual-format endpoint blockchain_status — on a case-insensitive
json response_format and a successful fetch it returns the bare status_data
dictionary with no envelope, and on any other format the markdown rendering
is passed through standardize_response. -/
theorem claim_C10 (fd : FetchData) (fmt : String) :
    (lowerStr fmt = "json" →
      blockchain_status (.ok fd) fmt = .raw (buildStatusData fd)) ∧
    (lowerStr fmt ≠ "json" →
      blockchain_status (.ok fd) fmt =
        .standardized (bs_standardize_response (markdownOutput fd) fmt)) := by
  constructor
  · intro h
    show (if lowerStr fmt = "json" then BSOutput.raw (buildStatusData fd)
      else .standardized (bs_standardize_response (markdownOutput fd) fmt)) =
        .raw (buildStatusData fd)
    rw [if_pos h]
  · intro h
    show (if lowerStr fmt = "json" then BSOutput.raw (buildStatusData fd)
      else .standardized (bs_standardize_response (markdownOutput fd) fmt)) =
        .standardized (bs_standardize_response (markdownOutput fd) fmt)
    rw [if_neg h]

theorem claim_C10_witness :
    blockchain_status (.ok fdSample) "JSON" = .raw (buildStatusData fdSample) :=
  (claim_C10 fdSample "JSON").1 (by with_unfolding_all rfl)

end ErgoSpec
